import Mathlib

/-!
Verification of the yoink repository (two Python front ends, src/yoink.py the
looping variant and src/seeker.py the configuration-dashboard variant) against
its natural-language specification.  The definitions below are a shallow
embedding of the Python source: pure fragments become Lean functions, the
selection loop becomes a step function over an explicit state, and the side
effects of the dispatch step (prints, file writes, child processes) become an
explicit effect list.  Character codes 39 and 92 stand for the single-quote
and backslash characters.
-/

/-- The single-quote character. -/
def sqChar : Char := Char.ofNat 39

/-- The backslash character. -/
def bsChar : Char := Char.ofNat 92

/-- The single-quote character as a one-character string. -/
def squote : String := String.singleton sqChar

/-- Characters removed by the Python method "str.strip()" with no argument
(ASCII whitespace; the model covers space, tab, newline, carriage return,
vertical tab and form feed, which matches Python on all ASCII input). -/
def pyIsSpace (c : Char) : Bool :=
  c = ' ' || c = Char.ofNat 9 || c = Char.ofNat 10 ||
  c = Char.ofNat 13 || c = Char.ofNat 11 || c = Char.ofNat 12

/-- Embedding of the Python method "str.strip()": remove whitespace from both
ends. -/
def pyStrip (s : String) : String :=
  String.mk (((s.data.dropWhile pyIsSpace).reverse.dropWhile pyIsSpace).reverse)

/-- Embedding of the Python method "str.split(sep)" for a one-character
separator, on character lists: splitting "a:b" on the colon gives
["a", "b"], ":" gives
["", ""], "" gives [""]. -/
def pySplit (sep : Char) : List Char → List (List Char)
  | [] => [[]]
  | c :: cs =>
    match pySplit sep cs with
    | s :: rest => if c = sep then [] :: s :: rest else (c :: s) :: rest
    | [] => []

/-- String-level wrapper for pySplit. -/
def pySplitStr (sep : Char) (s : String) : List String :=
  (pySplit sep s.data).map String.mk

/-- Embedding of the Python method "str.splitlines()" restricted to the
newline separator (the only line break the fzf pipeline produces): split at
each newline and drop the final empty fragment when the string ends with a
newline.  Matches Python: "" gives [], "a\n" gives ["a"], "\na" gives
["", "a"]. -/
def splitlines (s : String) : List String :=
  if s.data = [] then []
  else
    let parts := pySplit (Char.ofNat 10) s.data
    let parts :=
      if s.data.getLast? = some (Char.ofNat 10) then parts.dropLast else parts
    parts.map String.mk

/-- Embedding of the acceptance condition of the Python conversion "int(s)"
on ASCII text: optional surrounding whitespace, an optional sign, then one
or more decimal digits (underscore grouping is ignored by the model; it does
not occur in the inputs considered here). -/
def pyIntOk (s : String) : Bool :=
  let core := (s.data.dropWhile pyIsSpace).reverse.dropWhile pyIsSpace |>.reverse
  let digits :=
    match core with
    | c :: rest => if c = '+' ∨ c = '-' then rest else core
    | [] => []
  digits ≠ [] && digits.all Char.isDigit

/-- Truthiness of an optional Python string: None and "" are falsy. -/
def pyOptFalsy : Option String → Bool
  | none => true
  | some s => s = ""

/-- The SearchConfig class shared by both front ends (same five fields in
src/yoink.py lines 23-30 and src/seeker.py lines 34-41; the two differ only
in the defaults their constructors install). -/
structure SearchConfig where
  mode : String
  case_sensitive : Bool
  hidden_files : Bool
  editor : String
  initial_query : String
deriving DecidableEq, Repr

/-- Elementwise effect of the Python replacement of a single quote by the
four-character sequence quote backslash quote quote. -/
def escQuoteChar (c : Char) : List Char :=
  if c = sqChar then [sqChar, bsChar, sqChar, sqChar] else [c]

/-- Embedding of the Python expression
query.replace(quote, quote backslash quote quote) from src/yoink.py line 146:
for a one-character pattern, str.replace maps each occurrence of the pattern
character to the replacement and leaves every other character unchanged. -/
def pyReplaceQuote (s : String) : String :=
  String.mk (s.data.flatMap escQuoteChar)

namespace Yoink

/-- Constructor defaults of SearchConfig in src/yoink.py lines 25-30. -/
def initConfig : SearchConfig :=
  { mode := "filename", case_sensitive := false, hidden_files := false,
    editor := "cd", initial_query := "" }

/-- The hidden-file flag string of run_fzf (src/yoink.py lines 132 and 142). -/
def hidden_flag (config : SearchConfig) : String :=
  if config.hidden_files then "--hidden" else ""

/-- The case flag string of run_fzf (src/yoink.py line 143). -/
def case_flag (config : SearchConfig) : String :=
  if config.case_sensitive then "--case-sensitive" else "--smart-case"

/-- The query actually searched for in content mode (src/yoink.py line 145):
the configured initial query, or a dot when that query is empty (Python
truthiness). -/
def content_query (config : SearchConfig) : String :=
  if config.initial_query ≠ "" then config.initial_query else "."

/-- The search source command built by run_fzf (src/yoink.py lines 130-148):
in filename mode an rg file listing with a quoted ignore glob; in content
mode an rg content search whose query is single-quoted after escaping every
quote character in it. -/
def source_cmd (config : SearchConfig) : String :=
  if config.mode = "filename" then
    "rg --files " ++ hidden_flag config ++ " --glob " ++
      squote ++ "!.git/*" ++ squote
  else
    "rg --line-number --no-heading --color=always " ++ hidden_flag config ++
      " " ++ case_flag config ++ " " ++
      squote ++ pyReplaceQuote (content_query config) ++ squote

/-- Embedding of parse_selection (src/yoink.py lines 215-221): an empty or
absent selection gives (None, None); otherwise the raw text is split on the
colon; in content mode with at least two parts the result is
(parts[0], parts[1]) with the second part passed on verbatim; otherwise the
whole stripped string with no line number. -/
def parse_selection (raw_selection : String) (is_content_search : Bool) :
    Option String × Option String :=
  if raw_selection = "" then (none, none)
  else
    match pySplitStr ':' raw_selection with
    | p0 :: p1 :: _ =>
        if is_content_search then (some p0, some p1)
        else (some (pyStrip raw_selection), none)
    | _ => (some (pyStrip raw_selection), none)

end Yoink

namespace Seeker

/-- Constructor defaults of SearchConfig in src/seeker.py lines 36-41. -/
def initConfig : SearchConfig :=
  { mode := "filename", case_sensitive := false, hidden_files := true,
    editor := "vim", initial_query := "" }

/-- Embedding of parse_selection (src/seeker.py lines 287-293); the function
body is textually identical to the one in src/yoink.py. -/
def parse_selection (raw_selection : String) (is_content_search : Bool) :
    Option String × Option String :=
  if raw_selection = "" then (none, none)
  else
    match pySplitStr ':' raw_selection with
    | p0 :: p1 :: _ =>
        if is_content_search then (some p0, some p1)
        else (some (pyStrip raw_selection), none)
    | _ => (some (pyStrip raw_selection), none)

/-- The hidden-file flag string of run_fzf (src/seeker.py lines 236 and 242). -/
def hidden_flag (config : SearchConfig) : String :=
  if config.hidden_files then "--hidden" else ""

/-- The case flag string of run_fzf (src/seeker.py line 243). -/
def case_flag (config : SearchConfig) : String :=
  if config.case_sensitive then "--case-sensitive" else "--smart-case"

/-- The query searched for in content mode (src/seeker.py line 244). -/
def content_query (config : SearchConfig) : String :=
  if config.initial_query ≠ "" then config.initial_query else "."

/-- The search source command built by run_fzf (src/seeker.py lines 234-246).
Unlike the looping variant, the dashboard variant interpolates the query into
the single-quoted position with no escaping at all. -/
def source_cmd (config : SearchConfig) : String :=
  if config.mode = "filename" then
    "rg --files " ++ hidden_flag config ++ " --glob " ++
      squote ++ "!.git/*" ++ squote
  else
    "rg --line-number --no-heading --color=always " ++ hidden_flag config ++
      " " ++ case_flag config ++ " " ++
      squote ++ content_query config ++ squote

end Seeker

/-- Mode of the shell quoting scanner: outside quotes, inside a
single-quoted span, or immediately after an unquoted backslash. -/
inductive ShellMode where
  | out
  | inq
  | esc
deriving DecidableEq, Repr

/-- A scanner for the POSIX shell quoting structure of a command string.
Outside single quotes, a quote opens a quoted span, a backslash makes the
next character literal (failing on a trailing backslash), and every other
character is interpreted by the shell; inside single quotes every character
up to the closing quote is literal.  The scanner returns the list of
shell-interpreted (unquoted, unescaped) characters, or none when the string
is syntactically invalid: an unmatched single quote or a dangling
backslash. -/
def scanShell : List Char → ShellMode → Option (List Char)
  | [], .out => some []
  | [], .inq => none
  | [], .esc => none
  | c :: cs, .out =>
    if c = sqChar then scanShell cs .inq
    else if c = bsChar then scanShell cs .esc
    else (scanShell cs .out).map (fun l => c :: l)
  | _ :: cs, .esc => scanShell cs .out
  | c :: cs, .inq =>
    if c = sqChar then scanShell cs .out
    else scanShell cs .inq

/-- The shell-interpreted characters of the content-mode source command
outside its quoted query: the fixed rg invocation template for the given
hidden and case flags. -/
def contentTemplate (hidden case_sensitive : Bool) : List Char :=
  ("rg --line-number --no-heading --color=always " ++
    (if hidden then "--hidden" else "") ++ " " ++
    (if case_sensitive then "--case-sensitive" else "--smart-case") ++
    " ").data

/-- The slash character. -/
def slashChar : Char := '/'

/-- Whether a character list begins with a slash (the posixpath absoluteness
test "isabs"). -/
def startsSlash : List Char → Bool
  | c :: _ => c = slashChar
  | [] => false

/-- Number of leading-slash characters kept by posixpath.normpath: exactly
two leading slashes are preserved as two (a POSIX special case); any other
positive count collapses to one. -/
def normpathSlashes (l : List Char) : Nat :=
  let n := (l.takeWhile (fun c => c = slashChar)).length
  if n = 2 then 2 else if n = 0 then 0 else 1

/-- Embedding of posixpath.normpath (the Python standard library function
used through os.path.abspath): collapse repeated slashes and resolve the
dot and dot-dot components. -/
def normpath (p : String) : String :=
  if p = "" then "."
  else
    let slashes := normpathSlashes p.data
    let comps := pySplitStr slashChar p
    let newComps := comps.foldl (fun acc comp =>
      if comp = "" ∨ comp = "." then acc
      else if comp ≠ ".." ∨ (slashes = 0 ∧ acc = []) ∨
          acc.getLast? = some ".." then acc ++ [comp]
      else if acc ≠ [] then acc.dropLast
      else acc) []
    let res := String.mk (List.replicate slashes slashChar) ++
      String.intercalate "/" newComps
    if res = "" then "." else res

/-- Embedding of posixpath.join for two components, as used by
os.path.abspath. -/
def joinPath (a b : String) : String :=
  if startsSlash b.data then b
  else if a = "" ∨ a.data.getLast? = some slashChar then a ++ b
  else a ++ "/" ++ b

/-- Embedding of os.path.abspath with the ambient working directory passed
explicitly: an absolute path is normalised, a relative one is joined to the
working directory first. -/
def abspath (cwd p : String) : String :=
  if startsSlash p.data then normpath p else normpath (joinPath cwd p)

/-- Embedding of posixpath.dirname, as called by open_file: everything up to
the last slash, with trailing slashes stripped unless the head is all
slashes. -/
def dirname (p : String) : String :=
  match (pySplitStr slashChar p).dropLast with
  | [] => ""
  | parts =>
    let head := String.intercalate "/" parts ++ "/"
    if head.data.any (fun c => ¬c = slashChar) then
      String.mk ((head.data.reverse.dropWhile (fun c => c = slashChar)).reverse)
    else head

/-- The observable side effects of the dispatch step: a line printed to
standard output, a write replacing the content of the handoff file
~/.yoink_last_path (Python open mode "w" truncates, so a write installs its
content regardless of prior content), a child process run and waited on
(subprocess.run / subprocess.call), and the platform folder reveal
(os.startfile). -/
inductive Effect where
  | printOut (s : String)
  | writeHandoff (content : String)
  | spawn (args : List String)
  | spawnWait (args : List String)
  | reveal (path : String)
deriving DecidableEq, Repr

/-- Truthiness of the optional line number, as tested by
"if line_number:". -/
def lnTruthy : Option String → Bool
  | none => false
  | some s => if s = "" then false else true

/-- The Python expression pattern
"f-string path colon line if line_number else path" used by the print,
vscode and sublime branches of open_file. -/
def path_line (filepath : String) (line_number : Option String) : String :=
  if lnTruthy line_number then filepath ++ ":" ++ line_number.getD ""
  else filepath

/-- The content of the handoff file after a list of effects is performed:
each handoff write fully replaces the content (open mode "w"). -/
def applyHandoff (fs : Option String) (effs : List Effect) : Option String :=
  effs.foldl (fun acc e =>
    match e with
    | .writeHandoff c => some c
    | _ => acc) fs

/-- Result of one body execution of the selection loop: terminate the
process with an exit code, continue the loop with a (possibly mutated)
configuration, or terminate by dispatching the selection to an editor
action. -/
inductive StepResult where
  | exit (code : Nat)
  | loopNext (cfg : SearchConfig)
  | dispatch (editor filepath : String) (line_number : Option String)
deriving DecidableEq, Repr

/-- Ambient process environment threaded explicitly: platform.system(),
the EDITOR environment variable and the working directory. -/
structure Env where
  plat : String
  editorEnv : Option String
  cwd : String
deriving DecidableEq, Repr

/-- External inputs consumed by one iteration of the looping variant: the
answer to the content-query prompt (consulted only when the prompt is
shown), whether a KeyboardInterrupt arrived while the fzf pipeline was in
flight, and the fzf standard output otherwise. -/
structure IterInput where
  prompt_answer : String
  interrupted : Bool
  fzf_stdout : String
deriving DecidableEq, Repr

/-- Observable outcome of a whole session of the looping variant, together
with the final content of the handoff file (none means absent). -/
inductive SessionEnd where
  | running (cfg : SearchConfig) (handoff : Option String)
  | exited (code : Nat) (handoff : Option String)
  | dispatched (editor filepath : String) (line_number : Option String)
      (handoff : Option String)
deriving DecidableEq, Repr

/-- The handoff-file content recorded in a session outcome. -/
def SessionEnd.handoff : SessionEnd → Option String
  | .running _ fs => fs
  | .exited _ fs => fs
  | .dispatched _ _ _ fs => fs

/-- Whether the session ended in a change-directory dispatch. -/
def SessionEnd.isCdDispatch : SessionEnd → Bool
  | .dispatched ed _ _ _ => ed = "cd"
  | _ => false

/-- Outcome of running the Python function main: a normal exit code, or a
KeyboardInterrupt escaping it. -/
inductive PyOutcome where
  | finished (code : Nat)
  | interrupted
deriving DecidableEq, Repr

/-- Embedding of the top-level guard of src/yoink.py lines 309-313: a
KeyboardInterrupt escaping main is converted to a silent exit with code
0. -/
def entry_exit_code : PyOutcome → Nat
  | .finished c => c
  | .interrupted => 0

namespace Yoink

/-- Embedding of open_file (src/yoink.py lines 56-122) as the list of side
effects it performs, with the ambient platform, EDITOR variable and working
directory passed explicitly.  The error handlers (missing binary, failed
handoff write) only report a warning and are not modelled; the effect
records the attempted action. -/
def open_file (plat : String) (editorEnv : Option String) (cwd : String)
    (filepath : String) (line_number : Option String) (editor : String) :
    List Effect :=
  if editor = "print" then [.printOut (path_line filepath line_number)]
  else if editor = "cd" then
    [.writeHandoff (dirname (abspath cwd filepath))]
  else if editor = "folder" then
    if plat = "Windows" then [.reveal (dirname (abspath cwd filepath))]
    else if plat = "Darwin" then
      [.spawn ["open", dirname (abspath cwd filepath)]]
    else [.spawn ["xdg-open", dirname (abspath cwd filepath)]]
  else if editor = "vscode" then
    [.spawn ["code", "-g", path_line filepath line_number]]
  else if editor = "sublime" then
    [.spawn ["subl", path_line filepath line_number]]
  else if editor = "vim" then
    [.spawnWait ((editorEnv.getD "vim") ::
      (if lnTruthy line_number then
        ["+" ++ line_number.getD "", filepath]
      else [filepath]))]
  else []

/-- Embedding of the driver part of run_fzf (src/yoink.py lines 200-213):
a KeyboardInterrupt while the pipeline is in flight yields (None, False);
otherwise the fzf standard output is returned together with the
content-mode flag computed from the configuration. -/
def run_fzf (config : SearchConfig) (interrupted : Bool)
    (fzf_stdout : String) : Option String × Bool :=
  if interrupted then (none, false)
  else (some fzf_stdout,
    if config.mode = "filename" then false else true)

/-- Embedding of the key handling of the loop body (src/yoink.py lines
266-307): toggle keys mutate the configuration and continue; an empty
selection continues unchanged; otherwise the selection is parsed, an empty
parsed path exits with code 1, and the pressed key (or the default) picks
the dispatch action. -/
def handle_keys (config : SearchConfig) (key_pressed : String)
    (selection_text : Option String) (is_content : Bool) : StepResult :=
  if key_pressed = "ctrl-f" then .loopNext { config with mode := "filename" }
  else if key_pressed = "ctrl-g" then
    .loopNext { config with mode := "content", initial_query := "" }
  else if key_pressed = "ctrl-s" then
    .loopNext { config with case_sensitive := !config.case_sensitive }
  else if key_pressed = "ctrl-h" then
    .loopNext { config with hidden_files := !config.hidden_files }
  else if pyOptFalsy selection_text then .loopNext config
  else
    match parse_selection (selection_text.getD "") is_content with
    | (filepath, line_num) =>
      if pyOptFalsy filepath then .exit 1
      else
        let fp := filepath.getD ""
        if key_pressed = "ctrl-v" then .dispatch "vim" fp line_num
        else if key_pressed = "ctrl-x" then .dispatch "vscode" fp line_num
        else if key_pressed = "ctrl-t" then .dispatch "sublime" fp line_num
        else if key_pressed = "ctrl-o" then .dispatch "folder" fp line_num
        else .dispatch config.editor fp line_num

/-- Embedding of one body execution of the main loop (src/yoink.py lines
250-307) given the result of run_fzf: empty or absent output exits with
code 0; otherwise the first line is the pressed key, the second (when
present) the selection, and handle_keys decides the step. -/
def iter (config : SearchConfig) (r : Option String × Bool) : StepResult :=
  match r.1 with
  | none => .exit 0
  | some output =>
    if output = "" then .exit 0
    else
      match splitlines output with
      | [] => .exit 0
      | [k] => handle_keys config k none r.2
      | k :: sel :: _ => handle_keys config k (some sel) r.2

/-- Embedding of the query prompt at the top of the loop (src/yoink.py
lines 242-248): in content mode with an empty query the operator is asked;
an empty answer becomes a dot. -/
def prompt_query (config : SearchConfig) (answer : String) : SearchConfig :=
  if config.mode = "content" ∧ config.initial_query = "" then
    { config with initial_query := if answer = "" then "." else answer }
  else config

/-- The main loop of src/yoink.py, folded over the per-iteration external
inputs with the handoff-file content threaded through.  The loop body:
prompt for the query when needed, run the pipeline, and act on the result;
a dispatch performs the open_file effects and terminates. -/
def loop (env : Env) : SearchConfig → Option String → List IterInput →
    SessionEnd
  | cfg, fs, [] => .running cfg fs
  | cfg, fs, inp :: rest =>
    let cfg1 := prompt_query cfg inp.prompt_answer
    match iter cfg1 (run_fzf cfg1 inp.interrupted inp.fzf_stdout) with
    | .exit c => .exited c fs
    | .loopNext cfg2 => loop env cfg2 fs rest
    | .dispatch ed fp ln =>
      .dispatched ed fp ln
        (applyHandoff fs (open_file env.plat env.editorEnv env.cwd fp ln ed))

/-- Embedding of the pre-loop cleanup (src/yoink.py lines 229-235): the
handoff file is removed when it exists (modelling the successful removal;
the code ignores a failing removal), so the file is absent whatever it held
before. -/
def clear_last_path (_fs : Option String) : Option String := none

/-- A whole session of the looping variant: construct the default
configuration, clear the handoff file, then run the loop. -/
def session (env : Env) (fs0 : Option String) (inputs : List IterInput) :
    SessionEnd :=
  loop env initConfig (clear_last_path fs0) inputs

end Yoink

namespace Seeker

/-- Embedding of the result handling of main (src/seeker.py lines 308-334)
given the value returned by run_fzf: None on interrupt, otherwise the fzf
standard output stripped of surrounding whitespace (src/seeker.py line 282).
Absent or empty output exits 0; fewer than two lines exits 0; otherwise the
selection is parsed and the pressed key (or the configured default) picks
the dispatch action. -/
def main_result (config : SearchConfig) (run_fzf_raw : Option String) :
    StepResult :=
  match run_fzf_raw with
  | none => .exit 0
  | some raw =>
    let output := pyStrip raw
    if output = "" then .exit 0
    else
      match splitlines output with
      | key_pressed :: selection_text :: _ =>
        match parse_selection selection_text
            (if config.mode = "filename" then false else true) with
        | (filepath, line_num) =>
          if pyOptFalsy filepath then .exit 1
          else
            let fp := filepath.getD ""
            if key_pressed = "ctrl-v" then .dispatch "vim" fp line_num
            else if key_pressed = "ctrl-x" then .dispatch "vscode" fp line_num
            else if key_pressed = "ctrl-o" then .dispatch "folder" fp line_num
            else .dispatch config.editor fp line_num
      | _ => .exit 0

end Seeker

theorem data_append (a b : String) : (a ++ b).data = a.data ++ b.data := rfl

theorem squote_data : squote.data = [sqChar] := rfl

theorem pyReplaceQuote_data (s : String) :
    (pyReplaceQuote s).data = s.data.flatMap escQuoteChar := rfl

/-- Scanner step: a quote opens a quoted span. -/
theorem scanShell_out_sq (cs : List Char) :
    scanShell (sqChar :: cs) .out = scanShell cs .inq := rfl

/-- Scanner step: a quote closes a quoted span. -/
theorem scanShell_in_sq (cs : List Char) :
    scanShell (sqChar :: cs) .inq = scanShell cs .out := rfl

/-- Scanner step: a backslash outside quotes makes the next character
literal. -/
theorem scanShell_out_bs (x : Char) (cs : List Char) :
    scanShell (bsChar :: x :: cs) .out = scanShell cs .out := rfl

/-- Scanner step: inside quotes every non-quote character is literal. -/
theorem scanShell_in_other (c : Char) (cs : List Char) (h : ¬c = sqChar) :
    scanShell (c :: cs) .inq = scanShell cs .inq := by
  show (if c = sqChar then scanShell cs .out else scanShell cs .inq) =
    scanShell cs .inq
  rw [if_neg h]

/-- Scanner step: outside quotes an ordinary character is
shell-interpreted. -/
theorem scanShell_out_other (c : Char) (cs : List Char)
    (h1 : ¬c = sqChar) (h2 : ¬c = bsChar) :
    scanShell (c :: cs) .out = (scanShell cs .out).map (fun l => c :: l) := by
  show (if c = sqChar then scanShell cs .inq
    else if c = bsChar then scanShell cs .esc
    else (scanShell cs .out).map (fun l => c :: l)) =
    (scanShell cs .out).map (fun l => c :: l)
  rw [if_neg h1, if_neg h2]

/-- Scanning a quote-free, backslash-free plain segment passes it through:
every character of the segment is shell-interpreted and scanning continues
on the remainder. -/
theorem scanShell_plain_head (pre rest : List Char)
    (h : ∀ c ∈ pre, c ≠ sqChar ∧ c ≠ bsChar) :
    scanShell (pre ++ rest) .out =
      (scanShell rest .out).map (fun l => pre ++ l) := by
  induction pre with
  | nil =>
    simp
  | cons c pre ih =>
    have hc := h c (List.mem_cons_self c pre)
    have hpre : ∀ x ∈ pre, x ≠ sqChar ∧ x ≠ bsChar :=
      fun x hx => h x (List.mem_cons_of_mem _ hx)
    rw [List.cons_append, scanShell_out_other c _ hc.1 hc.2, ih hpre]
    cases scanShell rest .out <;> simp

/-- Scanning the quote-escaped image of an arbitrary query inside a
single-quoted span contributes no shell-interpreted character and ends with
the closing quote: the scan continues on the remainder, outside quotes. -/
theorem scanShell_escaped_query (q rest : List Char) :
    scanShell (q.flatMap escQuoteChar ++ (sqChar :: rest)) .inq =
      scanShell rest .out := by
  induction q with
  | nil =>
    rw [List.flatMap_nil, List.nil_append, scanShell_in_sq]
  | cons c q ih =>
    by_cases hc : c = sqChar
    · subst hc
      rw [List.flatMap_cons,
        show escQuoteChar sqChar = [sqChar, bsChar, sqChar, sqChar] from
          if_pos rfl,
        List.append_assoc]
      rw [show ([sqChar, bsChar, sqChar, sqChar] : List Char) ++
          (q.flatMap escQuoteChar ++ (sqChar :: rest)) =
          sqChar :: bsChar :: sqChar :: sqChar ::
            (q.flatMap escQuoteChar ++ (sqChar :: rest)) from rfl]
      rw [scanShell_in_sq, scanShell_out_bs, scanShell_out_sq]
      exact ih
    · rw [List.flatMap_cons,
        show escQuoteChar c = [c] from if_neg hc,
        List.append_assoc, List.singleton_append,
        scanShell_in_other c _ hc]
      exact ih

/-- Scanning a plain template segment followed by a single-quoted,
quote-escaped query yields exactly the template segment as the
shell-interpreted characters: the command is syntactically valid and the
query contributes nothing the shell interprets. -/
theorem scanShell_quoted_query (pre q : List Char)
    (hpre : ∀ c ∈ pre, c ≠ sqChar ∧ c ≠ bsChar) :
    scanShell (pre ++ (sqChar :: (q.flatMap escQuoteChar ++ [sqChar]))) .out =
      some pre := by
  rw [scanShell_plain_head pre _ hpre, scanShell_out_sq,
    show ([sqChar] : List Char) = sqChar :: [] from rfl,
    scanShell_escaped_query]
  simp [scanShell]

/-- Scanning a plain template followed by the single-quoted, quote-escaped
query, at the string level and with the association produced by the command
builders. -/
theorem quoted_cmd_scan (tpl q : String)
    (htpl : ∀ c ∈ tpl.data, c ≠ sqChar ∧ c ≠ bsChar) :
    scanShell (tpl ++ squote ++ pyReplaceQuote q ++ squote).data .out =
      some tpl.data := by
  have hd : (tpl ++ squote ++ pyReplaceQuote q ++ squote).data =
      tpl.data ++ (sqChar :: (q.data.flatMap escQuoteChar ++ [sqChar])) := by
    simp [data_append, squote_data, pyReplaceQuote_data, List.append_assoc]
  rw [hd, scanShell_quoted_query _ _ htpl]

/-- The rg content-search template contains neither a single quote nor a
backslash, whatever the two flags are. -/
theorem content_tpl_safe (hfv csv : Bool) :
    ∀ c ∈ ("rg --line-number --no-heading --color=always " ++
      (if hfv then "--hidden" else "") ++ " " ++
      (if csv then "--case-sensitive" else "--smart-case") ++ " ").data,
      c ≠ sqChar ∧ c ≠ bsChar := by
  cases hfv <;> cases csv <;> decide

/-- C1 counterexample: in the dashboard variant, the Configuration with
content mode and the query a-quote-b produces a sourceCommand that is not
syntactically valid shell: it contains an unmatched single quote, because
seeker.py interpolates the query without escaping.  The claim that quoting
safety holds in both variants is therefore false. -/
theorem c1_counterexample_dashboard_unmatched_quote :
    scanShell
      (Seeker.source_cmd
        { mode := "content", case_sensitive := false, hidden_files := true,
          editor := "vim",
          initial_query := "a" ++ squote ++ "b" }).data .out = none := by
  rfl

/-- C1 amended: in the looping variant (src/yoink.py), for every
Configuration in content mode, the sourceCommand built by run_fzf escapes
the single quotes of the query: the resulting command is syntactically
valid shell (no unescaped unmatched single quote, no dangling backslash),
and its shell-interpreted characters are exactly the fixed rg template for
the configured flags — the query contributes no character the shell
interprets, so it cannot inject additional shell commands.  The dashboard
variant (src/seeker.py) does not escape the query and the property fails
there. -/
theorem c1_amended_loop_variant_quoting_safe (cfg : SearchConfig)
    (h : cfg.mode ≠ "filename") :
    scanShell (Yoink.source_cmd cfg).data .out =
      some (contentTemplate cfg.hidden_files cfg.case_sensitive) := by
  obtain ⟨m, csv, hfv, ed, q⟩ := cfg
  have hcmd : Yoink.source_cmd ⟨m, csv, hfv, ed, q⟩ =
      ("rg --line-number --no-heading --color=always " ++
        Yoink.hidden_flag ⟨m, csv, hfv, ed, q⟩ ++ " " ++
        Yoink.case_flag ⟨m, csv, hfv, ed, q⟩ ++ " ") ++ squote ++
        pyReplaceQuote (Yoink.content_query ⟨m, csv, hfv, ed, q⟩) ++
        squote := by
    unfold Yoink.source_cmd
    rw [if_neg h]
  rw [hcmd]
  exact quoted_cmd_scan _ (Yoink.content_query ⟨m, csv, hfv, ed, q⟩)
    (content_tpl_safe hfv csv)

/-- Witness for the amended C1 theorem: the content-mode Configuration with
query a-quote-b satisfies the hypothesis, and its looping-variant
sourceCommand scans to exactly the plain rg template. -/
theorem c1_amended_loop_variant_quoting_safe_witness :
    (SearchConfig.mode
      { mode := "content", case_sensitive := false, hidden_files := false,
        editor := "cd", initial_query := "a" ++ squote ++ "b" } ≠
        "filename") ∧
    scanShell
      (Yoink.source_cmd
        { mode := "content", case_sensitive := false, hidden_files := false,
          editor := "cd",
          initial_query := "a" ++ squote ++ "b" }).data .out =
      some (contentTemplate false false) :=
  ⟨by decide, c1_amended_loop_variant_quoting_safe _ (by decide)⟩

/-- C9: the Result Parsers of the two front ends are extensionally equal:
for every raw selection string and every value of the content-mode flag,
parse_selection in the dashboard variant and parse_selection in the looping
variant return the same (path, lineNumber) pair. -/
theorem c9_parsers_extensionally_equal :
    ∀ (raw : String) (is_content : Bool),
      Yoink.parse_selection raw is_content = Seeker.parse_selection raw is_content :=
  fun _ _ => rfl

/-- C3 counterexample: on the content-mode selection "a.txt:xyz:foo", whose
second colon-separated part "xyz" is not a valid integer, parse_selection
returns lineNumber = some "xyz" (the malformed value passed onward verbatim),
not lineNumber = none as the claim states. -/
theorem c3_counterexample_malformed_line_number_passed_on :
    Yoink.parse_selection "a.txt:xyz:foo" true = (some "a.txt", some "xyz") ∧
    pyIntOk "xyz" = false := by
  constructor
  · rfl
  · rfl

/-- C3 amended: for every content-mode raw selection with at least two
colon-separated parts, the Result Parser returns path = part[0] and
lineNumber = part[1] taken verbatim as text, with no integer parsing and no
validation: a malformed value is passed onward unchanged rather than being
turned into "no line number", and the selection as a whole is not rejected. -/
theorem c3_amended_parser_passes_raw_second_part
    (raw p0 p1 : String) (rest : List String)
    (hne : raw ≠ "") (hsplit : pySplitStr ':' raw = p0 :: p1 :: rest) :
    Yoink.parse_selection raw true = (some p0, some p1) := by
  unfold Yoink.parse_selection
  rw [if_neg hne, hsplit]
  simp

/-- Witness for the amended C3 theorem at the concrete selection
"a.txt:xyz:foo". -/
theorem c3_amended_parser_passes_raw_second_part_witness :
    ("a.txt:xyz:foo" : String) ≠ "" ∧
    pySplitStr ':' "a.txt:xyz:foo" = ["a.txt", "xyz", "foo"] ∧
    Yoink.parse_selection "a.txt:xyz:foo" true = (some "a.txt", some "xyz") :=
  ⟨by decide, by rfl,
    c3_amended_parser_passes_raw_second_part "a.txt:xyz:foo" "a.txt" "xyz" ["foo"]
      (by decide) (by rfl)⟩

/-- C2: the claim says a plain confirm (empty expect-key line) with a
non-empty selection dispatches the default action in both variants.  The
looping variant does: on fzf output consisting of an empty key line and the
selection README.md it dispatches the configured default editor.  The
dashboard variant does not: run_fzf strips the whole output first
(src/seeker.py line 282), which deletes the empty key line, so main sees a
single line and exits 0 without any dispatch — contradicting both the spec
and the code's own header text and its dead "User pressed Enter" branch. -/
theorem c2_plain_enter_dispatch (cfg : SearchConfig) (is_content : Bool) :
    Yoink.iter cfg (some "\nREADME.md\n", is_content) =
      .dispatch cfg.editor "README.md" none ∧
    Seeker.main_result cfg (some "\nREADME.md\n") = .exit 0 :=
  ⟨rfl, rfl⟩

/-- C5: an operator interrupt at a blocking point is a clean cancellation:
run_fzf returns the cancelled value (None, False) instead of propagating
the interruption, the loop exits with code 0 on the cancelled value, and a
KeyboardInterrupt escaping main is converted to exit code 0 by the
top-level guard. -/
theorem c5_interrupt_clean_cancellation :
    (∀ (cfg : SearchConfig) (s : String),
      Yoink.run_fzf cfg true s = (none, false)) ∧
    (∀ (cfg : SearchConfig) (b : Bool),
      Yoink.iter cfg (none, b) = .exit 0) ∧
    entry_exit_code .interrupted = 0 :=
  ⟨fun _ _ => rfl, fun _ _ => rfl, rfl⟩

/-- C6: a change-directory dispatch on path /home/u/proj/file.txt writes
exactly /home/u/proj — the containing directory, a single line — to the
handoff file, fully overwriting any prior content (the write is a truncating
open, so the result does not depend on the prior content). -/
theorem c6_cd_dispatch_writes_parent_dir (plat : String)
    (editorEnv : Option String) (cwd : String) (prior : Option String)
    (ln : Option String) :
    applyHandoff prior
      (Yoink.open_file plat editorEnv cwd "/home/u/proj/file.txt" ln "cd") =
      some "/home/u/proj" ∧
    splitlines "/home/u/proj" = ["/home/u/proj"] :=
  ⟨rfl, rfl⟩

/-- C7: in the looping variant, an iteration whose fzf output has first
line ctrl-g switches the configuration to content mode and resets the
initial query to the empty string, whatever its prior value, and loops
(the empty query then makes the next iteration prompt the operator). -/
theorem c7_ctrl_g_resets_query (cfg : SearchConfig) (out : String)
    (is_content : Bool) (h : (splitlines out).head? = some "ctrl-g") :
    Yoink.iter cfg (some out, is_content) =
      .loopNext { cfg with mode := "content", initial_query := "" } := by
  have hne : ¬out = "" := by
    intro he
    rw [he] at h
    simp [splitlines] at h
  unfold Yoink.iter
  simp only
  rw [if_neg hne]
  rcases hsp : splitlines out with _ | ⟨k, rest⟩
  · rw [hsp] at h
    simp at h
  · rw [hsp] at h
    simp at h
    subst h
    cases rest
    · rfl
    · rfl

/-- Witness for C7 at the concrete fzf output "ctrl-g" newline "x". -/
theorem c7_ctrl_g_resets_query_witness :
    (splitlines "ctrl-g\nx").head? = some "ctrl-g" ∧
    Yoink.iter Yoink.initConfig (some "ctrl-g\nx", false) =
      .loopNext { mode := "content", case_sensitive := false, hidden_files := false, editor := "cd", initial_query := "" } :=
  ⟨by decide, c7_ctrl_g_resets_query Yoink.initConfig "ctrl-g\nx" false
    (by decide)⟩

/-- C8: in the looping variant, the ctrl-s handler flips exactly the
case-sensitivity field and the ctrl-h handler flips exactly the
hidden-files field, so processing either toggle twice in succession
returns the Configuration to its original value with no other field
changed. -/
theorem c8_toggle_involution (cfg : SearchConfig) (s1 s2 : Option String)
    (i1 i2 : Bool) :
    Yoink.handle_keys cfg "ctrl-s" s1 i1 =
      .loopNext { cfg with case_sensitive := !cfg.case_sensitive } ∧
    Yoink.handle_keys { cfg with case_sensitive := !cfg.case_sensitive }
      "ctrl-s" s2 i2 = .loopNext cfg ∧
    Yoink.handle_keys cfg "ctrl-h" s1 i1 =
      .loopNext { cfg with hidden_files := !cfg.hidden_files } ∧
    Yoink.handle_keys { cfg with hidden_files := !cfg.hidden_files }
      "ctrl-h" s2 i2 = .loopNext cfg := by
  obtain ⟨m, csv, hfv, ed, q⟩ := cfg
  refine ⟨rfl, ?_, rfl, ?_⟩ <;> simp [Yoink.handle_keys]

/-- A dispatch with any editor other than "cd" emits no handoff-file
write, so it leaves the handoff-file content unchanged. -/
theorem open_file_no_handoff_unless_cd (plat : String)
    (editorEnv : Option String) (cwd fp : String) (ln : Option String)
    (ed : String) (h : ¬ed = "cd") (fs : Option String) :
    applyHandoff fs (Yoink.open_file plat editorEnv cwd fp ln ed) = fs := by
  simp only [Yoink.open_file]
  split_ifs <;> simp_all [applyHandoff]

/-- The loop invariant behind C4: starting from an absent handoff file,
every outcome of the loop other than a change-directory dispatch leaves the
handoff file absent. -/
theorem loop_no_handoff (env : Env) (inputs : List IterInput) :
    ∀ cfg : SearchConfig,
      (Yoink.loop env cfg none inputs).isCdDispatch = false →
      (Yoink.loop env cfg none inputs).handoff = none := by
  induction inputs with
  | nil =>
    intro cfg _
    rfl
  | cons inp rest ih =>
    intro cfg hncd
    simp only [Yoink.loop] at hncd ⊢
    rcases hit : Yoink.iter (Yoink.prompt_query cfg inp.prompt_answer)
        (Yoink.run_fzf (Yoink.prompt_query cfg inp.prompt_answer)
          inp.interrupted inp.fzf_stdout) with c | cfg2 | ⟨ed, fp, ln⟩
    · rfl
    · rw [hit] at hncd
      exact ih cfg2 hncd
    · rw [hit] at hncd
      have hed : ¬ed = "cd" := by
        simpa [SessionEnd.isCdDispatch] using hncd
      simpa [SessionEnd.handoff] using
        open_file_no_handoff_unless_cd env.plat env.editorEnv env.cwd fp ln
          ed hed none

/-- C4: in every session of the looping variant the handoff file is cleared
before the selection loop starts, and no step other than a change-directory
dispatch writes it; hence whenever a session does not end in a
change-directory dispatch — cancellation included — the handoff file holds
nothing left over from before the session. -/
theorem c4_handoff_absent_without_cd_dispatch (env : Env)
    (fs0 : Option String) (inputs : List IterInput)
    (h : (Yoink.session env fs0 inputs).isCdDispatch = false) :
    (Yoink.session env fs0 inputs).handoff = none :=
  loop_no_handoff env inputs Yoink.initConfig h

/-- Witness for C4: a session whose single iteration is interrupted (a
cancelled session) starting with stale handoff content ends with the
handoff file absent. -/
theorem c4_handoff_absent_without_cd_dispatch_witness :
    (Yoink.session { plat := "Linux", editorEnv := none, cwd := "/w" }
      (some "/stale")
      [{ prompt_answer := "", interrupted := true,
         fzf_stdout := "" }]).isCdDispatch = false ∧
    (Yoink.session { plat := "Linux", editorEnv := none, cwd := "/w" }
      (some "/stale")
      [{ prompt_answer := "", interrupted := true,
         fzf_stdout := "" }]).handoff = none :=
  ⟨by decide, c4_handoff_absent_without_cd_dispatch _ _ _ (by decide)⟩

/-- C10: in the looping variant, open_file with any editor value outside
the recognised set — including the default parameter value "system" —
falls through every branch and performs no side effect at all. -/
theorem c10_unknown_editor_no_effect (plat : String)
    (editorEnv : Option String) (cwd filepath : String) (ln : Option String)
    (editor : String)
    (h : editor ∉
      (["print", "cd", "folder", "vscode", "sublime", "vim"] : List String)) :
    Yoink.open_file plat editorEnv cwd filepath ln editor = [] := by
  simp only [List.mem_cons, not_or] at h
  obtain ⟨h1, h2, h3, h4, h5, h6, -⟩ := h
  simp [Yoink.open_file, h1, h2, h3, h4, h5, h6]

/-- Witness for C10 at the default parameter value "system". -/
theorem c10_unknown_editor_no_effect_witness :
    ("system" ∉
      (["print", "cd", "folder", "vscode", "sublime", "vim"] : List String)) ∧
    Yoink.open_file "Linux" none "/w" "f.txt" none "system" = [] :=
  ⟨by decide,
    c10_unknown_editor_no_effect "Linux" none "/w" "f.txt" none "system"
      (by decide)⟩
